import Mathlib

/-!
Verification of the feedback persistence layer
(`backend/open_webui/models/feedbacks.py`).

The development shallowly embeds the `FeedbackTable` operations over an
explicit store state (a list of feedback records standing for the rows of
the `feedback` table).  JSON payloads (`data`, `meta`, `snapshot` columns
and the chat snapshot contents) are embedded as the inductive `JVal`.
The external persistence engine and the memory-ingestion sink are opaque
collaborators: whether `db.add`/`db.commit`, the post-commit
`db.refresh`, or `pipe.add_text` raise is supplied as an oracle boolean
each, and the calls made to the sink are recorded as a trace.
-/

/-- A JSON-like Python value, as stored in the `data`/`meta`/`snapshot`
JSON columns and in chat snapshots. Numbers are integers (the code only
ever compares ratings with the integer 1 and indexes with integers). -/
inductive JVal : Type where
  | null : JVal
  | bool (b : Bool) : JVal
  | num (n : Int) : JVal
  | str (s : String) : JVal
  | arr (elems : List JVal) : JVal
  | obj (fields : List (String × JVal)) : JVal

mutual

/-- Python `==` on JSON values (structural equality). -/
def JVal.beq : JVal → JVal → Bool
  | .null, .null => true
  | .bool a, .bool c => a == c
  | .num a, .num c => a == c
  | .str a, .str c => a == c
  | .arr a, .arr c => JVal.beqArr a c
  | .obj a, .obj c => JVal.beqObj a c
  | _, _ => false

def JVal.beqArr : List JVal → List JVal → Bool
  | [], [] => true
  | a :: as, c :: cs => JVal.beq a c && JVal.beqArr as cs
  | _, _ => false

def JVal.beqObj : List (String × JVal) → List (String × JVal) → Bool
  | [], [] => true
  | (k1, v1) :: as, (k2, v2) :: cs => k1 == k2 && JVal.beq v1 v2 && JVal.beqObj as cs
  | _, _ => false

end

/-- Python truthiness of a JSON value: `None`, `False`, `0`, `""`, `[]`
and the empty dict are falsy, everything else truthy. -/
def truthy : JVal → Bool
  | .null => false
  | .bool b => b
  | .num n => n != 0
  | .str s => !s.isEmpty
  | .arr xs => !xs.isEmpty
  | .obj fs => !fs.isEmpty

/-- Lookup in a Python dict with string keys (first binding wins, as a
dict has unique keys). -/
def jLookup (fs : List (String × JVal)) (k : String) : Option JVal :=
  (fs.find? (fun p => p.1 == k)).map (fun p => p.2)

/-- The Python single-quote character, used by `repr` of strings. -/
def pyQuote : String := String.singleton (Char.ofNat 39)

mutual

/-- Python `repr()` of a JSON value (the rendering used for elements of
containers by `str()`). -/
def pyRepr : JVal → String
  | .null => "None"
  | .bool b => if b then "True" else "False"
  | .num n => toString n
  | .str s => pyQuote ++ s ++ pyQuote
  | .arr xs => "[" ++ pyReprArr xs ++ "]"
  | .obj fs => "\x7b" ++ pyReprObj fs ++ "\x7d"

def pyReprArr : List JVal → String
  | [] => ""
  | [x] => pyRepr x
  | x :: y :: rest => pyRepr x ++ ", " ++ pyReprArr (y :: rest)

def pyReprObj : List (String × JVal) → String
  | [] => ""
  | [(k, v)] => pyQuote ++ k ++ pyQuote ++ ": " ++ pyRepr v
  | (k, v) :: p :: rest =>
      pyQuote ++ k ++ pyQuote ++ ": " ++ pyRepr v ++ ", " ++ pyReprObj (p :: rest)

end

/-- Python `str()` of a JSON value, as used by f-string interpolation
(scalars are rendered plainly, containers via `repr` of their elements). -/
def pyStr (v : JVal) : String :=
  match v with
  | .null => "None"
  | .bool b => if b then "True" else "False"
  | .num n => toString n
  | .str s => s
  | .arr xs => pyRepr (.arr xs)
  | .obj fs => pyRepr (.obj fs)

/-- Prefix test on character lists (helper for Python substring `in`). -/
def startsChars : List Char → List Char → Bool
  | [], _ => true
  | _ :: _, [] => false
  | a :: as, b :: bs => a == b && startsChars as bs

/-- Substring test on character lists (Python `needle in haystack` for
strings). -/
def hasChars (needle : List Char) : List Char → Bool
  | [] => startsChars needle []
  | c :: t => startsChars needle (c :: t) || hasChars needle t

/-- Python index-key normalization: `True`/`False` behave as `1`/`0` when
used as sequence indices. -/
def jKey (k : JVal) : JVal :=
  match k with
  | .bool b => .num (if b then 1 else 0)
  | _ => k

/-- Python subscript `c[k]`; `.error ()` stands for a raised
`KeyError`/`TypeError`/`IndexError`. -/
def jIndex (c k : JVal) : Except Unit JVal :=
  match c, jKey k with
  | .obj fs, .str s =>
      match jLookup fs s with
      | some v => .ok v
      | none => .error ()
  | .obj _, _ => .error ()
  | .arr xs, .num n =>
      let i : Int := if n < 0 then n + xs.length else n
      if 0 ≤ i ∧ i < (xs.length : Int) then .ok (xs.getD i.toNat .null) else .error ()
  | .str s, .num n =>
      let i : Int := if n < 0 then n + s.length else n
      if 0 ≤ i ∧ i < (s.length : Int) then
        .ok (.str (String.singleton (s.toList.getD i.toNat (Char.ofNat 32))))
      else .error ()
  | _, _ => .error ()

/-- Python membership `k in c`; `.error ()` stands for a raised
`TypeError` (unhashable key in a dict, or `in` on a scalar). -/
def keyMem (c k : JVal) : Except Unit Bool :=
  match c, jKey k with
  | .obj fs, .str s => .ok (jLookup fs s).isSome
  | .obj _, .num _ => .ok false
  | .obj _, .null => .ok false
  | .obj _, _ => .error ()
  | .arr xs, k2 => .ok (xs.any (fun v => JVal.beq (jKey v) k2))
  | .str s, .str t => .ok (hasChars t.toList s.toList)
  | _, _ => .error ()

/-- Python `c.get(k)` (dict method); `.error ()` stands for a raised
`AttributeError` when `c` is not a dict. -/
def pyGet (c : JVal) (k : String) : Except Unit (Option JVal) :=
  match c with
  | .obj fs => .ok (jLookup fs k)
  | _ => .error ()

/-! ## Data model (`FeedbackModel`, forms) -/

/-- A rating value as accepted by `RatingData.rating : Optional[str | int]`. -/
inductive RatingVal : Type where
  | rint (n : Int) : RatingVal
  | rstr (s : String) : RatingVal
deriving DecidableEq

/-- `RatingData` (pydantic model, `extra="allow"`): the recognized fields
plus the preserved extra key/value pairs. A value of this type stands for
the model and, interchangeably, for its `model_dump()` dict. -/
structure RatingData : Type where
  rating : Option RatingVal
  model_id : Option String
  sibling_model_ids : Option (List String)
  reason : Option String
  comment : Option String
  extra : List (String × JVal)

/-- `SnapshotData` (pydantic model, `extra="allow"`). -/
structure SnapshotData : Type where
  chat : Option JVal
  extra : List (String × JVal)

/-- `FeedbackForm` (pydantic model, `extra="allow"`): `type` required,
`data`/`meta`/`snapshot` optional, extra keys preserved and included in
`model_dump()`. `meta` is a plain dict. -/
structure FeedbackForm : Type where
  type : String
  data : Option RatingData
  meta : Option (List (String × JVal))
  snapshot : Option SnapshotData
  extra : List (String × JVal)

/-- `FeedbackModel`: the validated feedback record, standing for one row
of the `feedback` table. -/
structure FeedbackModel : Type where
  id : String
  user_id : String
  version : Int
  type : String
  data : Option RatingData
  meta : Option (List (String × JVal))
  snapshot : Option SnapshotData
  created_at : Nat
  updated_at : Nat

/-- One call made to the memory-ingestion sink (`pipe.add_text`). -/
structure SinkCall : Type where
  text : String
  collection_name : String
  metadata : List (String × JVal)

/-- Lookup of a key among the extra fields of a form. -/
def lookupExtra (extra : List (String × JVal)) (k : String) : Option JVal :=
  (extra.find? (fun p => p.1 == k)).map (fun p => p.2)

/-- Pydantic v2 lax validation of a `str` field: only strings pass. -/
def asPyStr : JVal → Option String
  | .str s => some s
  | _ => none

/-- Pydantic v2 lax validation of an `int` field: integers pass, numeric
strings are coerced, booleans and the rest are rejected. -/
def asPyInt : JVal → Option Int
  | .num n => some n
  | .str s => s.toInt?
  | _ => none

/-- The record constructed at the top of `insert_new_feedback`:
`FeedbackModel(**{"id": id, "user_id": user_id, "version": 0,
**form_data.model_dump(), "created_at": t1, "updated_at": t2})`.
Because `FeedbackForm` allows extra keys and its dump is splatted after
the `id`/`user_id`/`version` entries of the dict literal, extra form keys
named `id`, `user_id` or `version` override those defaults (the timestamp
entries come after the splat and cannot be overridden). `none` stands for
a pydantic `ValidationError` raised by `FeedbackModel` (outside the
`try` block). -/
def mkRecord (user_id genId : String) (form : FeedbackForm) (t1 t2 : Nat) :
    Option FeedbackModel :=
  match (match lookupExtra form.extra "id" with
         | none => some genId
         | some v => asPyStr v) with
  | none => none
  | some theId =>
    match (match lookupExtra form.extra "user_id" with
           | none => some user_id
           | some v => asPyStr v) with
    | none => none
    | some theUser =>
      match (match lookupExtra form.extra "version" with
             | none => some (0 : Int)
             | some v => asPyInt v) with
      | none => none
      | some ver =>
        some { id := theId, user_id := theUser, version := ver,
               type := form.type, data := form.data, meta := form.meta,
               snapshot := form.snapshot, created_at := t1, updated_at := t2 }

/-- The guard of the conversation-memory side effect (feedbacks.py lines
123-129): `form_data.data and form_data.data.rating == 1 and
form_data.snapshot and form_data.snapshot.chat and form_data.meta and
form_data.meta.get("message_id")`. Pydantic model instances are always
truthy; the plain `meta` dict and the `.get` result are tested for
Python truthiness. -/
def memGuard (form : FeedbackForm) : Bool :=
  (match form.data with
   | some d =>
       match d.rating with
       | some (.rint n) => n == 1
       | _ => false
   | none => false) &&
  (match form.snapshot with
   | some snap =>
       match snap.chat with
       | some chat => truthy chat
       | none => false
   | none => false) &&
  (match form.meta with
   | some m =>
       !m.isEmpty &&
       (match jLookup m "message_id" with
        | some v => truthy v
        | none => false)
   | none => false)

/-- The conversation-memory extraction (feedbacks.py lines 123-155),
evaluated after a successful commit. Returns the sink call to make, if
any; `.error ()` stands for an exception raised while navigating the
snapshot (e.g. `KeyError` on a missing `"history"`/`"messages"`/
`"content"` key), which the surrounding `except` clause catches. -/
def runMemory (uid : String) (form : FeedbackForm) : Except Unit (Option SinkCall) :=
  if memGuard form then
    match form.snapshot, form.meta with
    | some snap, some m =>
      (match snap.chat with
       | some chat => do
         let hist ← jIndex chat (.str "history")
         let mid := (jLookup m "message_id").getD .null
         let msgs ← jIndex hist (.str "messages")
         let isMem ← keyMem msgs mid
         if isMem then do
           let respMsg ← jIndex msgs mid
           let pid ← pyGet respMsg "parentId"
           match pid with
           | some p =>
             if truthy p then do
               let pMem ← keyMem msgs p
               if pMem then do
                 let userMsg ← jIndex msgs p
                 let userContent ← jIndex userMsg (.str "content")
                 let respContent ← jIndex respMsg (.str "content")
                 pure (some { text := "User: " ++ pyStr userContent ++
                                      "\nAssistant: " ++ pyStr respContent,
                              collection_name := "conversation_memory_" ++ uid,
                              metadata := [("source", .str "feedback"),
                                           ("message_id", mid)] })
               else pure none
             else pure none
           | none => pure none
         else pure none
       | none => pure none)
    | _, _ => pure none
  else pure none

/-! ## Operations of `FeedbackTable` -/

/-- Result of `insert_new_feedback`: the returned value (`.error ()` is
an exception escaping the method, which only the pre-`try` validation can
produce), the table state afterwards, and the trace of sink calls. -/
structure InsertResult : Type where
  ret : Except Unit (Option FeedbackModel)
  store : List FeedbackModel
  sink : List SinkCall

/-- `FeedbackTable.insert_new_feedback`. Three oracles stand for the
fallible calls inside the `try` block, in program order. `commitOk` is
whether `db.add`/`db.commit` succeed (a duplicate primary key always
fails, since `id` is the primary-key column); on such a failure the
transaction scope discards the uncommitted row and the `except` clause
returns `None` with the table unchanged. `refreshOk` is whether the
post-commit `db.refresh` (line 117) and `FeedbackModel.model_validate`
succeed; these run inside the same `try` block but after the commit, so
when they raise the `except` clause returns `None` although the row is
already committed, and the memory side effect never runs. The memory
side effect also runs after the commit: an exception raised by its
extraction (or by `pipe.add_text`, oracle `sinkOk`) is caught by the
same `except` clause, again returning `None` with the row committed. -/
def insert_new_feedback (store : List FeedbackModel) (user_id : String)
    (form : FeedbackForm) (genId : String) (t1 t2 : Nat)
    (commitOk refreshOk sinkOk : Bool) : InsertResult :=
  match mkRecord user_id genId form t1 t2 with
  | none => { ret := .error (), store := store, sink := [] }
  | some rec =>
    if commitOk && !(store.any (fun f => f.id == rec.id)) then
      if refreshOk then
        match runMemory user_id form with
        | .error _ => { ret := .ok none, store := store ++ [rec], sink := [] }
        | .ok none => { ret := .ok (some rec), store := store ++ [rec], sink := [] }
        | .ok (some call) =>
            { ret := if sinkOk then .ok (some rec) else .ok none,
              store := store ++ [rec], sink := [call] }
      else { ret := .ok none, store := store ++ [rec], sink := [] }
    else { ret := .ok none, store := store, sink := [] }

/-- `FeedbackTable.get_feedback_by_id`. -/
def get_feedback_by_id (store : List FeedbackModel) (id : String) :
    Option FeedbackModel :=
  store.find? (fun f => f.id == id)

/-- `FeedbackTable.get_feedback_by_id_and_user_id`. -/
def get_feedback_by_id_and_user_id (store : List FeedbackModel)
    (id user_id : String) : Option FeedbackModel :=
  store.find? (fun f => f.id == id && f.user_id == user_id)

/-- `FeedbackTable.get_all_feedbacks` (ordered by `updated_at`
descending). -/
def get_all_feedbacks (store : List FeedbackModel) : List FeedbackModel :=
  store.mergeSort (fun a b => b.updated_at ≤ a.updated_at)

/-- `FeedbackTable.get_feedbacks_by_user_id`. -/
def get_feedbacks_by_user_id (store : List FeedbackModel) (user_id : String) :
    List FeedbackModel :=
  (store.filter (fun f => f.user_id == user_id)).mergeSort
    (fun a b => b.updated_at ≤ a.updated_at)

/-- In-place mutation of the loaded row performed by both update methods:
`data`/`snapshot` are replaced when present on the form (a pydantic model
instance is always truthy), `meta` only when it is a non-empty dict
(`if form_data.meta:` is a truthiness test on a plain dict), and
`updated_at` is set to the current time. -/
def applyUpdate (f : FeedbackModel) (form : FeedbackForm) (now : Nat) :
    FeedbackModel :=
  { f with
    data := match form.data with
            | some d => some d
            | none => f.data,
    meta := match form.meta with
            | some m => if m.isEmpty then f.meta else some m
            | none => f.meta,
    snapshot := match form.snapshot with
                | some s => some s
                | none => f.snapshot,
    updated_at := now }

/-- Replace the first record satisfying `p` (the row object mutated in
place by the update methods). -/
def replaceFirst (p : FeedbackModel → Bool) (f : FeedbackModel) :
    List FeedbackModel → List FeedbackModel
  | [] => []
  | g :: gs => if p g then f :: gs else g :: replaceFirst p f gs

/-- `FeedbackTable.update_feedback_by_id`: returns the updated view and
the table state afterwards. -/
def update_feedback_by_id (store : List FeedbackModel) (id : String)
    (form : FeedbackForm) (now : Nat) :
    Option FeedbackModel × List FeedbackModel :=
  match store.find? (fun f => f.id == id) with
  | none => (none, store)
  | some f =>
      let f2 := applyUpdate f form now
      (some f2, replaceFirst (fun g => g.id == id) f2 store)

/-- `FeedbackTable.update_feedback_by_id_and_user_id`. -/
def update_feedback_by_id_and_user_id (store : List FeedbackModel)
    (id user_id : String) (form : FeedbackForm) (now : Nat) :
    Option FeedbackModel × List FeedbackModel :=
  match store.find? (fun f => f.id == id && f.user_id == user_id) with
  | none => (none, store)
  | some f =>
      let f2 := applyUpdate f form now
      (some f2, replaceFirst (fun g => g.id == id && g.user_id == user_id) f2 store)

/-- Remove the first record satisfying `p`. -/
def removeFirst (p : FeedbackModel → Bool) :
    List FeedbackModel → List FeedbackModel
  | [] => []
  | g :: gs => if p g then gs else g :: removeFirst p gs

/-- `FeedbackTable.delete_feedback_by_id`. -/
def delete_feedback_by_id (store : List FeedbackModel) (id : String) :
    Bool × List FeedbackModel :=
  match store.find? (fun f => f.id == id) with
  | none => (false, store)
  | some _ => (true, removeFirst (fun f => f.id == id) store)

/-- `FeedbackTable.delete_feedback_by_id_and_user_id`. -/
def delete_feedback_by_id_and_user_id (store : List FeedbackModel)
    (id user_id : String) : Bool × List FeedbackModel :=
  match store.find? (fun f => f.id == id && f.user_id == user_id) with
  | none => (false, store)
  | some _ => (true, removeFirst (fun f => f.id == id && f.user_id == user_id) store)

/-- `FeedbackTable.delete_feedbacks_by_user_id`. -/
def delete_feedbacks_by_user_id (store : List FeedbackModel)
    (user_id : String) : Bool × List FeedbackModel :=
  if (store.filter (fun f => f.user_id == user_id)).isEmpty then (false, store)
  else (true, store.filter (fun f => !(f.user_id == user_id)))

/-- `FeedbackTable.delete_all_feedbacks`. -/
def delete_all_feedbacks (store : List FeedbackModel) :
    Bool × List FeedbackModel :=
  if store.isEmpty then (false, store) else (true, [])

/-! ## Concrete example values -/

/-- The chat snapshot of the scenario in the spec: two messages, `msg2`
answering `msg1`. -/
def exChat : JVal :=
  .obj [("history", .obj [("messages", .obj [
    ("msg1", .obj [("content", .str "hi"), ("parentId", .null)]),
    ("msg2", .obj [("content", .str "hello back"), ("parentId", .str "msg1")])])])]

/-- Rating payload `{rating: 1, model_id: "m1"}`. -/
def exRating : RatingData :=
  { rating := some (.rint 1), model_id := some "m1",
    sibling_model_ids := none, reason := none, comment := none, extra := [] }

/-- The scenario form: `type="rating"`, `data={rating:1, model_id:"m1"}`,
`meta={message_id:"msg2"}`, the snapshot above. -/
def exForm : FeedbackForm :=
  { type := "rating", data := some exRating,
    meta := some [("message_id", .str "msg2")],
    snapshot := some { chat := some exChat, extra := [] },
    extra := [] }

/-- The record the scenario create persists. -/
def exRec (uid gen : String) (t1 t2 : Nat) : FeedbackModel :=
  { id := gen, user_id := uid, version := 0, type := "rating",
    data := some exRating, meta := some [("message_id", .str "msg2")],
    snapshot := some { chat := some exChat, extra := [] },
    created_at := t1, updated_at := t2 }

/-- The sink call the scenario produces. -/
def exCall (uid : String) : SinkCall :=
  { text := "User: hi\nAssistant: hello back",
    collection_name := "conversation_memory_" ++ uid,
    metadata := [("source", .str "feedback"), ("message_id", .str "msg2")] }

/-- A minimal form with no payloads and no extra keys. -/
def plainForm : FeedbackForm :=
  { type := "gen", data := none, meta := none, snapshot := none, extra := [] }

/-- A form carrying an extra `version` key, as a client may submit since
`FeedbackForm` allows extra fields. -/
def verForm : FeedbackForm :=
  { type := "gen", data := none, meta := none, snapshot := none,
    extra := [("version", .num 7)] }

/-- A stored record used by the update examples. -/
def exStored : FeedbackModel :=
  { id := "a", user_id := "u1", version := 0, type := "rating",
    data := some exRating, meta := some [("k", .str "v")],
    snapshot := some { chat := some exChat, extra := [] },
    created_at := 10, updated_at := 10 }

/-- An update form supplying only `meta`, as the empty dict. -/
def emptyMetaForm : FeedbackForm :=
  { type := "rating", data := none, meta := some [], snapshot := none, extra := [] }

/-- The scenario form with `meta` present but lacking `message_id`. -/
def noMsgForm : FeedbackForm :=
  { exForm with meta := some [("chat_id", .str "c1")] }

/-- The record persisted by a create from `noMsgForm`. -/
def noMsgRec : FeedbackModel :=
  { exRec "u1" "f1" 100 100 with meta := some [("chat_id", .str "c1")] }

/-- The record persisted by a create from `plainForm` at times 5 and 6
(two distinct clock readings). -/
def c6Rec : FeedbackModel :=
  { id := "f1", user_id := "u1", version := 0, type := "gen", data := none,
    meta := none, snapshot := none, created_at := 5, updated_at := 6 }

/-- The record persisted by a create from `verForm`: the extra `version`
key of the form overrides the `"version": 0` entry of the dict literal. -/
def verRec : FeedbackModel :=
  { id := "f1", user_id := "u1", version := 7, type := "gen", data := none,
    meta := none, snapshot := none, created_at := 0, updated_at := 0 }

/-- The record persisted by a create from `plainForm` at time 3. -/
def plainRec : FeedbackModel :=
  { id := "f1", user_id := "u1", version := 0, type := "gen", data := none,
    meta := none, snapshot := none, created_at := 3, updated_at := 3 }

/-- `exStored` after an update that touched nothing but `updated_at`. -/
def c5Upd0 : FeedbackModel := { exStored with updated_at := 50 }

/-- An update form supplying only a non-empty `meta`. -/
def metaOnlyForm : FeedbackForm :=
  { type := "rating", data := none, meta := some [("n", .str "w")],
    snapshot := none, extra := [] }

/-- `exStored` after an update with `metaOnlyForm`. -/
def c5Upd : FeedbackModel :=
  { exStored with meta := some [("n", .str "w")], updated_at := 50 }

/-- `exStored` after an update with `plainForm` at time 77. -/
def c10Upd : FeedbackModel := { exStored with updated_at := 77 }

/-- A second stored record owned by a different user. -/
def otherRec : FeedbackModel :=
  { id := "b", user_id := "u2", version := 0, type := "gen", data := none,
    meta := none, snapshot := none, created_at := 4, updated_at := 4 }

/-- The record committed by a create from `plainForm` at time 8, whose
post-commit refresh then fails. -/
def c2Rec : FeedbackModel :=
  { id := "f2", user_id := "u1", version := 0, type := "gen", data := none,
    meta := none, snapshot := none, created_at := 8, updated_at := 8 }

/-- Table states reachable through the exposed operations, starting from
the empty table. Operation parameters (ids, forms, clock readings, the
persistence and sink oracles) are arbitrary. -/
inductive Reachable : List FeedbackModel → Prop where
  | empty : Reachable []
  | create (s : List FeedbackModel) (uid : String) (form : FeedbackForm)
      (gen : String) (t1 t2 : Nat) (cOk rOk sOk : Bool) : Reachable s →
      Reachable (insert_new_feedback s uid form gen t1 t2 cOk rOk sOk).store
  | updById (s : List FeedbackModel) (id : String) (form : FeedbackForm)
      (now : Nat) : Reachable s →
      Reachable (update_feedback_by_id s id form now).2
  | updByIdUser (s : List FeedbackModel) (id uid : String)
      (form : FeedbackForm) (now : Nat) : Reachable s →
      Reachable (update_feedback_by_id_and_user_id s id uid form now).2
  | delById (s : List FeedbackModel) (id : String) : Reachable s →
      Reachable (delete_feedback_by_id s id).2
  | delByIdUser (s : List FeedbackModel) (id uid : String) : Reachable s →
      Reachable (delete_feedback_by_id_and_user_id s id uid).2
  | delByUser (s : List FeedbackModel) (uid : String) : Reachable s →
      Reachable (delete_feedbacks_by_user_id s uid).2
  | delAll (s : List FeedbackModel) : Reachable s →
      Reachable (delete_all_feedbacks s).2

/-- Reachable table states when every create form carries no extra
`version` key (the only way a form can override the `version = 0`
default, since `FeedbackForm` allows extra fields and its dump is
splatted over the dict literal). -/
inductive ReachableNV : List FeedbackModel → Prop where
  | empty : ReachableNV []
  | create (s : List FeedbackModel) (uid : String) (form : FeedbackForm)
      (gen : String) (t1 t2 : Nat) (cOk rOk sOk : Bool)
      (hv : lookupExtra form.extra "version" = none) : ReachableNV s →
      ReachableNV (insert_new_feedback s uid form gen t1 t2 cOk rOk sOk).store
  | updById (s : List FeedbackModel) (id : String) (form : FeedbackForm)
      (now : Nat) : ReachableNV s →
      ReachableNV (update_feedback_by_id s id form now).2
  | updByIdUser (s : List FeedbackModel) (id uid : String)
      (form : FeedbackForm) (now : Nat) : ReachableNV s →
      ReachableNV (update_feedback_by_id_and_user_id s id uid form now).2
  | delById (s : List FeedbackModel) (id : String) : ReachableNV s →
      ReachableNV (delete_feedback_by_id s id).2
  | delByIdUser (s : List FeedbackModel) (id uid : String) : ReachableNV s →
      ReachableNV (delete_feedback_by_id_and_user_id s id uid).2
  | delByUser (s : List FeedbackModel) (uid : String) : ReachableNV s →
      ReachableNV (delete_feedbacks_by_user_id s uid).2
  | delAll (s : List FeedbackModel) : ReachableNV s →
      ReachableNV (delete_all_feedbacks s).2

/-! ## Helper lemmas -/

/-- A predicate failing on every element makes `find?` come up empty. -/
theorem find?_eq_none_of_any_eq_false {p : FeedbackModel → Bool}
    {l : List FeedbackModel} (h : l.any p = false) : l.find? p = none := by
  rw [List.find?_eq_none]
  intro x hx hpx
  rw [List.any_eq_false] at h
  exact absurd hpx (h x hx)

/-- Appending a matching record to a list with no match makes it the
`find?` result. -/
theorem find?_append_of_fresh {p : FeedbackModel → Bool}
    {l : List FeedbackModel} {r : FeedbackModel}
    (h : l.any p = false) (hr : p r = true) : (l ++ [r]).find? p = some r := by
  induction l with
  | nil => simp [List.find?, hr]
  | cons g gs ih =>
    rw [List.any_cons, Bool.or_eq_false_iff] at h
    rw [List.cons_append, List.find?_cons_of_neg _ (by simp [h.1]), ih h.2]

/-- `mkRecord` always stamps the two clock readings into the timestamps
(the `created_at`/`updated_at` entries come after the form splat in the
dict literal, so no form key can override them). -/
theorem mkRecord_timestamps {uid gen : String} {form : FeedbackForm}
    {t1 t2 : Nat} {rec : FeedbackModel}
    (h : mkRecord uid gen form t1 t2 = some rec) :
    rec.created_at = t1 ∧ rec.updated_at = t2 := by
  unfold mkRecord at h
  split at h
  · simp at h
  · split at h
    · simp at h
    · split at h
      · simp at h
      · rw [Option.some_inj] at h
        subst h
        exact ⟨rfl, rfl⟩

/-- Without an extra `version` key on the form, `mkRecord` initializes
`version` to 0. -/
theorem mkRecord_version {uid gen : String} {form : FeedbackForm}
    {t1 t2 : Nat} {rec : FeedbackModel}
    (hv : lookupExtra form.extra "version" = none)
    (h : mkRecord uid gen form t1 t2 = some rec) : rec.version = 0 := by
  unfold mkRecord at h
  rw [hv] at h
  split at h
  · simp at h
  · split at h
    · simp at h
    · split at h
      · simp at h
      next ver h3 =>
        rw [Option.some_inj] at h
        subst h
        exact (Option.some_inj.mp h3).symm

/-- Inversion: a create that returns a record view constructed exactly
that record. -/
theorem insert_ret_some_inv {store : List FeedbackModel} {uid gen : String}
    {form : FeedbackForm} {t1 t2 : Nat} {cOk rOk sOk : Bool} {rec : FeedbackModel}
    (h : (insert_new_feedback store uid form gen t1 t2 cOk rOk sOk).ret
          = .ok (some rec)) :
    mkRecord uid gen form t1 t2 = some rec := by
  unfold insert_new_feedback at h
  split at h
  next hmk => simp at h
  next r hmk =>
    split at h
    · split at h
      · split at h
        · simp at h
        · simp at h
          subst h
          exact hmk
        · simp at h
          split at h
          · simp at h
            subst h
            exact hmk
          · simp at h
      · simp at h
    · simp at h

/-- When the side-effect guard is off, the memory extraction does
nothing. -/
theorem runMemory_of_guard_false {form : FeedbackForm} (uid : String)
    (h : memGuard form = false) : runMemory uid form = .ok none := by
  unfold runMemory
  rw [h]
  rfl

/-- A create whose memory extraction does nothing never calls the sink. -/
theorem sink_empty_of_runMemory_none {store : List FeedbackModel}
    {uid gen : String} {form : FeedbackForm} {t1 t2 : Nat} {cOk rOk sOk : Bool}
    (h : runMemory uid form = .ok none) :
    (insert_new_feedback store uid form gen t1 t2 cOk rOk sOk).sink = [] := by
  unfold insert_new_feedback
  split
  · rfl
  · split
    · split
      · rw [h]
      · rfl
    · rfl

/-- Each disqualifying condition of the claim (rating other than the
integer 1, absent `snapshot.chat`, absent `meta` or no message
identifier in it) falsifies the side-effect guard. -/
theorem memGuard_false_cases (form : FeedbackForm)
    (H : (∀ d, form.data = some d → d.rating ≠ some (.rint 1))
       ∨ (form.snapshot = none ∨ ∃ s, form.snapshot = some s ∧ s.chat = none)
       ∨ (form.meta = none ∨ ∃ m, form.meta = some m ∧ jLookup m "message_id" = none)) :
    memGuard form = false := by
  unfold memGuard
  rcases H with h | h | h
  · cases hd : form.data with
    | none => simp [hd]
    | some d =>
      have hne := h d hd
      cases hr : d.rating with
      | none => simp [hd, hr]
      | some rv =>
        cases rv with
        | rint n =>
          have hn1 : n ≠ 1 := fun hn => hne (by rw [hr, hn])
          simp [hd, hr, hn1]
        | rstr s => simp [hd, hr]
  · rcases h with h | ⟨s, hs, hc⟩
    · simp [h]
    · simp [hs, hc]
  · rcases h with h | ⟨m, hm, hk⟩
    · simp [h]
    · simp [hm, hk]

/-- Membership in the result of `replaceFirst`. -/
theorem mem_replaceFirst {p : FeedbackModel → Bool} {f2 : FeedbackModel}
    {l : List FeedbackModel} {r : FeedbackModel}
    (h : r ∈ replaceFirst p f2 l) : r = f2 ∨ r ∈ l := by
  induction l with
  | nil => cases h
  | cons g gs ih =>
    unfold replaceFirst at h
    split at h
    · rcases List.mem_cons.mp h with h1 | h1
      · exact Or.inl h1
      · exact Or.inr (List.mem_cons_of_mem _ h1)
    · rcases List.mem_cons.mp h with h1 | h1
      · exact Or.inr (h1 ▸ List.mem_cons_self _ _)
      · rcases ih h1 with h2 | h2
        · exact Or.inl h2
        · exact Or.inr (List.mem_cons_of_mem _ h2)

/-- Membership in the result of `removeFirst`. -/
theorem mem_removeFirst {p : FeedbackModel → Bool} {l : List FeedbackModel}
    {r : FeedbackModel} (h : r ∈ removeFirst p l) : r ∈ l := by
  induction l with
  | nil => cases h
  | cons g gs ih =>
    unfold removeFirst at h
    split at h
    · exact List.mem_cons_of_mem _ h
    · rcases List.mem_cons.mp h with h1 | h1
      · exact h1 ▸ List.mem_cons_self _ _
      · exact List.mem_cons_of_mem _ (ih h1)

/-- Every record in the table after a create was already there or is the
newly constructed record. -/
theorem mem_insert_store {store : List FeedbackModel} {uid gen : String}
    {form : FeedbackForm} {t1 t2 : Nat} {cOk rOk sOk : Bool} {r : FeedbackModel}
    (h : r ∈ (insert_new_feedback store uid form gen t1 t2 cOk rOk sOk).store) :
    r ∈ store ∨ mkRecord uid gen form t1 t2 = some r := by
  unfold insert_new_feedback at h
  split at h
  · exact Or.inl h
  next rec hmk =>
    split at h
    · have hmem : r ∈ store ++ [rec] := by
        split at h
        · split at h
          · exact h
          · exact h
          · exact h
        · exact h
      rcases List.mem_append.mp hmem with h1 | h1
      · exact Or.inl h1
      · right
        rw [List.mem_singleton.mp h1]
        exact hmk
    · exact Or.inl h

/-- Every record in the table after an unscoped update was already there
or is the in-place mutation of a record that was. -/
theorem mem_update_store {store : List FeedbackModel} {id : String}
    {form : FeedbackForm} {now : Nat} {r : FeedbackModel}
    (h : r ∈ (update_feedback_by_id store id form now).2) :
    r ∈ store ∨ ∃ f, f ∈ store ∧ r = applyUpdate f form now := by
  unfold update_feedback_by_id at h
  split at h
  · exact Or.inl h
  next f hf =>
    rcases mem_replaceFirst h with h1 | h1
    · exact Or.inr ⟨f, List.mem_of_find?_eq_some hf, h1⟩
    · exact Or.inl h1

/-- Every record in the table after a scoped update was already there or
is the in-place mutation of a record that was. -/
theorem mem_update_scoped_store {store : List FeedbackModel}
    {id uid : String} {form : FeedbackForm} {now : Nat} {r : FeedbackModel}
    (h : r ∈ (update_feedback_by_id_and_user_id store id uid form now).2) :
    r ∈ store ∨ ∃ f, f ∈ store ∧ r = applyUpdate f form now := by
  unfold update_feedback_by_id_and_user_id at h
  split at h
  · exact Or.inl h
  next f hf =>
    rcases mem_replaceFirst h with h1 | h1
    · exact Or.inr ⟨f, List.mem_of_find?_eq_some hf, h1⟩
    · exact Or.inl h1

/-- Deleting a record by id only removes records. -/
theorem mem_delete_by_id {store : List FeedbackModel} {id : String}
    {r : FeedbackModel} (h : r ∈ (delete_feedback_by_id store id).2) :
    r ∈ store := by
  unfold delete_feedback_by_id at h
  split at h
  · exact h
  · exact mem_removeFirst h

/-- Deleting a record by id and owner only removes records. -/
theorem mem_delete_by_id_user {store : List FeedbackModel} {id uid : String}
    {r : FeedbackModel} (h : r ∈ (delete_feedback_by_id_and_user_id store id uid).2) :
    r ∈ store := by
  unfold delete_feedback_by_id_and_user_id at h
  split at h
  · exact h
  · exact mem_removeFirst h

/-- Deleting all records of a user only removes records. -/
theorem mem_delete_by_user {store : List FeedbackModel} {uid : String}
    {r : FeedbackModel} (h : r ∈ (delete_feedbacks_by_user_id store uid).2) :
    r ∈ store := by
  unfold delete_feedbacks_by_user_id at h
  split at h
  · exact h
  · exact (List.mem_filter.mp h).1

/-- Deleting everything only removes records. -/
theorem mem_delete_all {store : List FeedbackModel} {r : FeedbackModel}
    (h : r ∈ (delete_all_feedbacks store).2) : r ∈ store := by
  unfold delete_all_feedbacks at h
  split at h
  · exact h
  · cases h

/-- With duplicate-free ids, two stored records with the same id are the
same record. -/
theorem id_unique_mem {l : List FeedbackModel}
    (hn : (l.map (fun f => f.id)).Nodup) {a b : FeedbackModel}
    (ha : a ∈ l) (hb : b ∈ l) (hid : a.id = b.id) : a = b := by
  induction l with
  | nil => cases ha
  | cons g gs ih =>
    rw [List.map_cons, List.nodup_cons] at hn
    rcases List.mem_cons.mp ha with ha1 | ha1 <;>
      rcases List.mem_cons.mp hb with hb1 | hb1
    · rw [ha1, hb1]
    · exfalso
      apply hn.1
      rw [ha1] at hid
      rw [hid]
      exact List.mem_map_of_mem _ hb1
    · exfalso
      apply hn.1
      rw [hb1] at hid
      rw [← hid]
      exact List.mem_map_of_mem _ ha1
    · exact ih hn.2 ha1 hb1

/-- With duplicate-free ids, point lookup by the id of a stored record finds
exactly that record. -/
theorem find_by_id_of_mem {l : List FeedbackModel}
    (hn : (l.map (fun f => f.id)).Nodup) {r : FeedbackModel} (hr : r ∈ l) :
    l.find? (fun f => f.id == r.id) = some r := by
  induction l with
  | nil => cases hr
  | cons g gs ih =>
    by_cases hg : g.id = r.id
    · have hgr : g = r := id_unique_mem hn (List.mem_cons_self g gs) hr hg
      rw [List.find?_cons_of_pos _ (by simp [hg]), hgr]
    · rw [List.find?_cons_of_neg _ (by simp [hg])]
      apply ih (by rw [List.map_cons, List.nodup_cons] at hn; exact hn.2)
      rcases List.mem_cons.mp hr with h1 | h1
      · exact absurd (by rw [h1]) hg
      · exact h1

/-! ## Claim theorems -/

/-- C1 (counterexample): for the scenario create (positive rating with a
valid chat snapshot) with a failing memory-ingestion sink, the create
returns an absent result even though the record was committed and is
durable (readable by id afterwards). This refutes the claim that a
side-effect failure leaves the create still returning the persisted
record view: the sink runs inside the `try` block of the create, so its
exception is caught by the same handler and converted to `None`. -/
theorem c1_counterexample :
    (insert_new_feedback [] "u1" exForm "f1" 100 100 true true false).ret = .ok none ∧
    get_feedback_by_id (insert_new_feedback [] "u1" exForm "f1" 100 100 true true false).store "f1"
      = some (exRec "u1" "f1" 100 100) :=
  ⟨rfl, rfl⟩

/-- C1 (amended): for every create whose record has been committed and
whose memory side effect reaches the sink, a sink failure is caught and
does not raise to the caller and does not roll back the committed
record — the record remains durable and readable — but the create then
returns an absent result instead of the persisted record view. -/
theorem c1_sink_failure_durable (store : List FeedbackModel)
    (uid gen : String) (form : FeedbackForm) (t1 t2 : Nat)
    (rec : FeedbackModel) (call : SinkCall)
    (hmk : mkRecord uid gen form t1 t2 = some rec)
    (hfresh : store.any (fun f => f.id == rec.id) = false)
    (hrm : runMemory uid form = .ok (some call)) :
    (insert_new_feedback store uid form gen t1 t2 true true false).ret = .ok none ∧
    (insert_new_feedback store uid form gen t1 t2 true true false).store = store ++ [rec] ∧
    get_feedback_by_id (insert_new_feedback store uid form gen t1 t2 true true false).store rec.id
      = some rec := by
  have hres : insert_new_feedback store uid form gen t1 t2 true true false
      = { ret := .ok none, store := store ++ [rec], sink := [call] } := by
    unfold insert_new_feedback
    simp [hmk, hfresh, hrm]
  refine ⟨by rw [hres], by rw [hres], ?_⟩
  rw [hres]
  exact find?_append_of_fresh hfresh (by simp)

/-- C1 (witness): the amended theorem at the scenario input. -/
theorem c1_witness :
    (insert_new_feedback [] "u2" exForm "f9" 11 12 true true false).ret = .ok none ∧
    (insert_new_feedback [] "u2" exForm "f9" 11 12 true true false).store
      = [] ++ [exRec "u2" "f9" 11 12] ∧
    get_feedback_by_id (insert_new_feedback [] "u2" exForm "f9" 11 12 true true false).store
      (exRec "u2" "f9" 11 12).id = some (exRec "u2" "f9" 11 12) :=
  c1_sink_failure_durable [] "u2" "f9" exForm 11 12
    (exRec "u2" "f9" 11 12) (exCall "u2") rfl rfl rfl

/-- C2 (counterexample): `db.refresh` (line 117) runs inside the same
`try` block but after `db.commit`; when it raises, the `except` clause
returns an absent result while the committed record remains readable by
id afterwards — refuting the claim that after a create in which the
persistence operation raised, no read operation can observe a record
from that create. -/
theorem c2_counterexample :
    (insert_new_feedback [] "u1" plainForm "f2" 8 8 true false true).ret = .ok none ∧
    get_feedback_by_id (insert_new_feedback [] "u1" plainForm "f2" 8 8 true false true).store "f2"
      = some c2Rec :=
  ⟨rfl, rfl⟩

/-- C2 (amended): when the underlying persistence operation raises
during a create, the method returns an absent result (no exception
crosses the boundary: the result is an `ok`, not an error) and the sink
is never invoked. If the error is raised by `db.add`/`db.commit`, the
table is unchanged and no read can observe a record from the failed
create; but if the error is raised after the commit (by `db.refresh` or
the model validation), the already-committed record remains visible to
readers. -/
theorem c2_persistence_error_paths (store : List FeedbackModel)
    (uid gen : String) (form : FeedbackForm) (t1 t2 : Nat) (rOk sOk : Bool)
    (rec : FeedbackModel)
    (hmk : mkRecord uid gen form t1 t2 = some rec)
    (hfresh : store.any (fun f => f.id == rec.id) = false) :
    ((insert_new_feedback store uid form gen t1 t2 false rOk sOk).ret = .ok none ∧
     (insert_new_feedback store uid form gen t1 t2 false rOk sOk).store = store ∧
     (insert_new_feedback store uid form gen t1 t2 false rOk sOk).sink = [] ∧
     get_feedback_by_id (insert_new_feedback store uid form gen t1 t2 false rOk sOk).store rec.id
       = none) ∧
    ((insert_new_feedback store uid form gen t1 t2 true false sOk).ret = .ok none ∧
     (insert_new_feedback store uid form gen t1 t2 true false sOk).store = store ++ [rec] ∧
     (insert_new_feedback store uid form gen t1 t2 true false sOk).sink = [] ∧
     get_feedback_by_id (insert_new_feedback store uid form gen t1 t2 true false sOk).store rec.id
       = some rec) := by
  have hres1 : insert_new_feedback store uid form gen t1 t2 false rOk sOk
      = { ret := .ok none, store := store, sink := [] } := by
    unfold insert_new_feedback
    simp [hmk]
  have hres2 : insert_new_feedback store uid form gen t1 t2 true false sOk
      = { ret := .ok none, store := store ++ [rec], sink := [] } := by
    unfold insert_new_feedback
    simp [hmk, hfresh]
  refine ⟨⟨by rw [hres1], by rw [hres1], by rw [hres1], ?_⟩,
          ⟨by rw [hres2], by rw [hres2], by rw [hres2], ?_⟩⟩
  · rw [hres1]
    exact find?_eq_none_of_any_eq_false hfresh
  · rw [hres2]
    exact find?_append_of_fresh hfresh (by simp)

/-- C2 (witness): both persistence-error paths at a concrete input. -/
theorem c2_witness :
    ((insert_new_feedback [] "u1" exForm "f1" 100 100 false true true).ret = .ok none ∧
     (insert_new_feedback [] "u1" exForm "f1" 100 100 false true true).store = [] ∧
     (insert_new_feedback [] "u1" exForm "f1" 100 100 false true true).sink = [] ∧
     get_feedback_by_id (insert_new_feedback [] "u1" exForm "f1" 100 100 false true true).store
       (exRec "u1" "f1" 100 100).id = none) ∧
    ((insert_new_feedback [] "u1" exForm "f1" 100 100 true false true).ret = .ok none ∧
     (insert_new_feedback [] "u1" exForm "f1" 100 100 true false true).store
       = [] ++ [exRec "u1" "f1" 100 100] ∧
     (insert_new_feedback [] "u1" exForm "f1" 100 100 true false true).sink = [] ∧
     get_feedback_by_id (insert_new_feedback [] "u1" exForm "f1" 100 100 true false true).store
       (exRec "u1" "f1" 100 100).id = some (exRec "u1" "f1" 100 100)) :=
  c2_persistence_error_paths [] "u1" "f1" exForm 100 100 true true
    (exRec "u1" "f1" 100 100) rfl rfl

/-- C3: the scenario create (`type="rating"`, `data={rating:1,
model_id:"m1"}`, `meta={message_id:"msg2"}`, snapshot with `msg1` the
parent of `msg2`) succeeds and invokes the sink exactly once, with text
`"User: hi\nAssistant: hello back"`, collection name
`"conversation_memory_" ++ uid` derived from the user identifier, and
metadata `{source: "feedback", message_id: "msg2"}` (see `exCall`). -/
theorem c3_sink_invoked_once (store : List FeedbackModel)
    (uid gen : String) (t1 t2 : Nat)
    (hfresh : store.any (fun f => f.id == gen) = false) :
    (insert_new_feedback store uid exForm gen t1 t2 true true true).sink = [exCall uid] ∧
    (insert_new_feedback store uid exForm gen t1 t2 true true true).ret
      = .ok (some (exRec uid gen t1 t2)) := by
  have hmk : mkRecord uid gen exForm t1 t2 = some (exRec uid gen t1 t2) := rfl
  have hrm : runMemory uid exForm = .ok (some (exCall uid)) := rfl
  have hfresh2 : store.any (fun f => f.id == (exRec uid gen t1 t2).id) = false := hfresh
  have hres : insert_new_feedback store uid exForm gen t1 t2 true true true
      = { ret := .ok (some (exRec uid gen t1 t2)), store := store ++ [exRec uid gen t1 t2],
          sink := [exCall uid] } := by
    unfold insert_new_feedback
    simp [hmk, hfresh2, hrm]
  exact ⟨by rw [hres], by rw [hres]⟩

/-- C3 (witness): the scenario create on the empty table. -/
theorem c3_witness :
    (insert_new_feedback [] "u1" exForm "f1" 100 100 true true true).sink = [exCall "u1"] ∧
    (insert_new_feedback [] "u1" exForm "f1" 100 100 true true true).ret
      = .ok (some (exRec "u1" "f1" 100 100)) :=
  c3_sink_invoked_once [] "u1" "f1" 100 100 rfl

/-- C4: whenever the rating is not the integer 1, or `snapshot.chat` is
absent, or `meta` is absent or lacks a `message_id` entry, the
memory-ingestion sink is never invoked (whatever the oracles); and in
particular, when `meta` lacks a message identifier, a create whose
persistence succeeds still returns the persisted record. -/
theorem c4_unqualified_no_sink (store : List FeedbackModel)
    (uid gen : String) (form : FeedbackForm) (t1 t2 : Nat) (cOk rOk sOk : Bool)
    (H : (∀ d, form.data = some d → d.rating ≠ some (.rint 1))
       ∨ (form.snapshot = none ∨ ∃ s, form.snapshot = some s ∧ s.chat = none)
       ∨ (form.meta = none ∨ ∃ m, form.meta = some m ∧ jLookup m "message_id" = none)) :
    (insert_new_feedback store uid form gen t1 t2 cOk rOk sOk).sink = [] ∧
    (∀ rec, mkRecord uid gen form t1 t2 = some rec →
      store.any (fun f => f.id == rec.id) = false →
      (form.meta = none ∨ ∃ m, form.meta = some m ∧ jLookup m "message_id" = none) →
      (insert_new_feedback store uid form gen t1 t2 true true sOk).ret
        = .ok (some rec)) := by
  constructor
  · exact sink_empty_of_runMemory_none
      (runMemory_of_guard_false uid (memGuard_false_cases form H))
  · intro rec hmk hfresh hmeta
    have hrm : runMemory uid form = .ok none :=
      runMemory_of_guard_false uid (memGuard_false_cases form (Or.inr (Or.inr hmeta)))
    unfold insert_new_feedback
    simp [hmk, hfresh, hrm]

/-- C4 (witness): the scenario form with `meta` lacking `message_id`
never reaches the sink and still persists. -/
theorem c4_witness :
    (insert_new_feedback [] "u1" noMsgForm "f1" 100 100 true true true).sink = [] ∧
    (insert_new_feedback [] "u1" noMsgForm "f1" 100 100 true true true).ret
      = .ok (some noMsgRec) := by
  have h := c4_unqualified_no_sink [] "u1" "f1" noMsgForm 100 100 true true true
    (Or.inr (Or.inr (Or.inr ⟨[("chat_id", .str "c1")], rfl, rfl⟩)))
  exact ⟨h.1, h.2 noMsgRec rfl rfl (Or.inr ⟨[("chat_id", .str "c1")], rfl, rfl⟩)⟩

/-- C6 (counterexample): the create performs two separate clock reads
(`int(time.time())` at lines 109 and 110); when the second read lands in
the next second, the persisted record has `created_at ≠ updated_at`,
refuting the claim that they are equal for every successful create. -/
theorem c6_counterexample :
    (insert_new_feedback [] "u1" plainForm "f1" 5 6 true true true).ret
      = .ok (some c6Rec) ∧ c6Rec.created_at ≠ c6Rec.updated_at :=
  ⟨rfl, by decide⟩

/-- C6 (amended): for every successful create, `created_at` and
`updated_at` are the two clock readings taken during the create, so
`created_at ≤ updated_at` under a monotone clock, with equality exactly
when both reads return the same second. -/
theorem c6_timestamps (store : List FeedbackModel) (uid gen : String)
    (form : FeedbackForm) (t1 t2 : Nat) (cOk rOk sOk : Bool)
    (rec : FeedbackModel) (hmono : t1 ≤ t2)
    (hret : (insert_new_feedback store uid form gen t1 t2 cOk rOk sOk).ret
      = .ok (some rec)) :
    rec.created_at ≤ rec.updated_at ∧
    (t1 = t2 → rec.created_at = rec.updated_at) := by
  obtain ⟨h1, h2⟩ := mkRecord_timestamps (insert_ret_some_inv hret)
  rw [h1, h2]
  exact ⟨hmono, fun h => h⟩

/-- C6 (witness): the amended theorem when both clock reads agree. -/
theorem c6_witness :
    plainRec.created_at ≤ plainRec.updated_at ∧
    ((3 : Nat) = 3 → plainRec.created_at = plainRec.updated_at) :=
  c6_timestamps [] "u1" "f1" plainForm 3 3 true true true plainRec
    (Nat.le_refl 3) rfl

/-- C5 (counterexample): an update whose form supplies only `meta`, as
the empty dict, leaves the stored `meta` unchanged instead of replacing
it (the `if form_data.meta:` truthiness test skips an empty dict), so
the claim that a supplied `meta` is always replaced wholesale fails. -/
theorem c5_counterexample :
    (update_feedback_by_id [exStored] "a" emptyMetaForm 50).1 = some c5Upd0 ∧
    c5Upd0.meta = exStored.meta ∧ c5Upd0.meta ≠ emptyMetaForm.meta := by
  refine ⟨rfl, rfl, ?_⟩
  simp [c5Upd0, exStored, emptyMetaForm]

/-- C5 (amended): for every update (unscoped or ownership-scoped) on an
existing record whose form supplies only a non-empty `meta` (`data` and
`snapshot` absent), the stored `data` and `snapshot` are unchanged,
`meta` is replaced wholesale by the supplied mapping, and `updated_at`
is set to the current clock reading (so it advances under a monotone
clock). -/
theorem c5_meta_only_update (store : List FeedbackModel) (id uid : String)
    (form : FeedbackForm) (m : List (String × JVal)) (now : Nat)
    (hd : form.data = none) (hs : form.snapshot = none)
    (hm : form.meta = some m) (hne : m ≠ []) :
    (∀ f f2, store.find? (fun x => x.id == id) = some f →
      (update_feedback_by_id store id form now).1 = some f2 →
      f2.data = f.data ∧ f2.snapshot = f.snapshot ∧ f2.meta = some m ∧
      f2.updated_at = now ∧ (f.updated_at ≤ now → f.updated_at ≤ f2.updated_at)) ∧
    (∀ f f2, store.find? (fun x => x.id == id && x.user_id == uid) = some f →
      (update_feedback_by_id_and_user_id store id uid form now).1 = some f2 →
      f2.data = f.data ∧ f2.snapshot = f.snapshot ∧ f2.meta = some m ∧
      f2.updated_at = now ∧ (f.updated_at ≤ now → f.updated_at ≤ f2.updated_at)) := by
  have hemp : m.isEmpty = false := by
    cases m with
    | nil => exact absurd rfl hne
    | cons a as => rfl
  constructor
  · intro f f2 hf hr
    unfold update_feedback_by_id at hr
    simp only [hf] at hr
    rw [Option.some_inj] at hr
    subst hr
    refine ⟨?_, ?_, ?_, ?_, ?_⟩ <;> simp [applyUpdate, hd, hs, hm, hemp]
  · intro f f2 hf hr
    unfold update_feedback_by_id_and_user_id at hr
    simp only [hf] at hr
    rw [Option.some_inj] at hr
    subst hr
    refine ⟨?_, ?_, ?_, ?_, ?_⟩ <;> simp [applyUpdate, hd, hs, hm, hemp]

/-- C5 (witness): the amended theorem on a concrete store and a
one-entry `meta`. -/
theorem c5_witness :
    c5Upd.data = exStored.data ∧ c5Upd.snapshot = exStored.snapshot ∧
    c5Upd.meta = some [("n", .str "w")] ∧ c5Upd.updated_at = 50 ∧
    (exStored.updated_at ≤ 50 → exStored.updated_at ≤ c5Upd.updated_at) :=
  (c5_meta_only_update [exStored] "a" "u1" metaOnlyForm [("n", .str "w")] 50
      rfl rfl rfl (by simp)).1 exStored c5Upd rfl rfl

/-- C9: an update whose form carries `meta = {}` (the empty mapping)
leaves the stored `meta` unchanged, for both the unscoped and the
ownership-scoped update: the truthiness test treats an empty supplied
`meta` exactly like an absent one. -/
theorem c9_empty_meta_ignored (store : List FeedbackModel) (id uid : String)
    (form : FeedbackForm) (now : Nat) (hm : form.meta = some []) :
    (∀ f f2, store.find? (fun x => x.id == id) = some f →
      (update_feedback_by_id store id form now).1 = some f2 → f2.meta = f.meta) ∧
    (∀ f f2, store.find? (fun x => x.id == id && x.user_id == uid) = some f →
      (update_feedback_by_id_and_user_id store id uid form now).1 = some f2 →
      f2.meta = f.meta) := by
  constructor
  · intro f f2 hf hr
    unfold update_feedback_by_id at hr
    simp only [hf] at hr
    rw [Option.some_inj] at hr
    subst hr
    simp [applyUpdate, hm]
  · intro f f2 hf hr
    unfold update_feedback_by_id_and_user_id at hr
    simp only [hf] at hr
    rw [Option.some_inj] at hr
    subst hr
    simp [applyUpdate, hm]

/-- C9 (witness): the empty-`meta` update on a concrete store. -/
theorem c9_witness : c5Upd0.meta = exStored.meta :=
  (c9_empty_meta_ignored [exStored] "a" "u1" emptyMetaForm 50 rfl).1
    exStored c5Upd0 rfl rfl

/-- C10: every update (unscoped or ownership-scoped) leaves the stored
`id`, `user_id`, `type` and `created_at` unchanged; the required
`type` field of the form is quantified over arbitrarily and never
written. -/
theorem c10_update_frame (store : List FeedbackModel) (id uid : String)
    (form : FeedbackForm) (now : Nat) :
    (∀ f f2, store.find? (fun x => x.id == id) = some f →
      (update_feedback_by_id store id form now).1 = some f2 →
      f2.id = f.id ∧ f2.user_id = f.user_id ∧ f2.type = f.type ∧
      f2.created_at = f.created_at) ∧
    (∀ f f2, store.find? (fun x => x.id == id && x.user_id == uid) = some f →
      (update_feedback_by_id_and_user_id store id uid form now).1 = some f2 →
      f2.id = f.id ∧ f2.user_id = f.user_id ∧ f2.type = f.type ∧
      f2.created_at = f.created_at) := by
  constructor
  · intro f f2 hf hr
    unfold update_feedback_by_id at hr
    simp only [hf] at hr
    rw [Option.some_inj] at hr
    subst hr
    exact ⟨rfl, rfl, rfl, rfl⟩
  · intro f f2 hf hr
    unfold update_feedback_by_id_and_user_id at hr
    simp only [hf] at hr
    rw [Option.some_inj] at hr
    subst hr
    exact ⟨rfl, rfl, rfl, rfl⟩

/-- C10 (witness): an update whose form carries a different `type`
(`"gen"` vs the stored `"rating"`) leaves all four fields unchanged. -/
theorem c10_witness :
    c10Upd.id = exStored.id ∧ c10Upd.user_id = exStored.user_id ∧
    c10Upd.type = exStored.type ∧ c10Upd.created_at = exStored.created_at :=
  (c10_update_frame [exStored] "a" "u1" plainForm 77).1 exStored c10Upd rfl rfl

/-- C7: for every stored record and every other user identifier, the
ownership-scoped read with the id of the record returns absent while the
unscoped read returns the record (ids are duplicate-free, as `id` is the
primary key). -/
theorem c7_ownership_isolation (store : List FeedbackModel)
    (r : FeedbackModel) (u : String)
    (hn : (store.map (fun f => f.id)).Nodup) (hr : r ∈ store)
    (hu : u ≠ r.user_id) :
    get_feedback_by_id_and_user_id store r.id u = none ∧
    get_feedback_by_id store r.id = some r := by
  constructor
  · unfold get_feedback_by_id_and_user_id
    rw [List.find?_eq_none]
    intro x hx hpx
    rw [Bool.and_eq_true, beq_iff_eq, beq_iff_eq] at hpx
    have hxr : x = r := id_unique_mem hn hx hr hpx.1
    apply hu
    rw [← hpx.2, hxr]
  · exact find_by_id_of_mem hn hr

/-- C7 (witness): a two-record store, reading the first record with the
owner of the second record. -/
theorem c7_witness :
    get_feedback_by_id_and_user_id [exStored, otherRec] exStored.id "u2" = none ∧
    get_feedback_by_id [exStored, otherRec] exStored.id = some exStored :=
  c7_ownership_isolation [exStored, otherRec] exStored "u2"
    (by decide) (by simp) (by decide)

/-- C8 (counterexample): a reachable state containing a record with
`version = 7`: `FeedbackForm` allows extra fields and its dump is
splatted after the `"version": 0` entry of the dict literal in
`insert_new_feedback`, so a create form carrying an extra `version` key
overrides the initialization, refuting the claim that every record in
every reachable state has `version = 0`. -/
theorem c8_counterexample :
    Reachable (insert_new_feedback [] "u1" verForm "f1" 0 0 true true true).store ∧
    verRec ∈ (insert_new_feedback [] "u1" verForm "f1" 0 0 true true true).store ∧
    verRec.version ≠ 0 :=
  ⟨Reachable.create [] "u1" verForm "f1" 0 0 true true true Reachable.empty,
   List.mem_cons_self _ _, by decide⟩

/-- C8 (amended): provided no create form carries an extra `version`
key, every record in every reachable state has `version = 0`: create
initializes it to 0 and no exposed operation changes it. -/
theorem c8_version_invariant (s : List FeedbackModel) (hs : ReachableNV s) :
    ∀ r ∈ s, r.version = 0 := by
  induction hs with
  | empty =>
    intro r hr
    cases hr
  | create s uid form gen t1 t2 cOk rOk sOk hv hprev ih =>
    intro r hr
    rcases mem_insert_store hr with h1 | h1
    · exact ih r h1
    · exact mkRecord_version hv h1
  | updById s id form now hprev ih =>
    intro r hr
    rcases mem_update_store hr with h1 | ⟨f, hf, hr2⟩
    · exact ih r h1
    · rw [hr2]
      exact ih f hf
  | updByIdUser s id uid form now hprev ih =>
    intro r hr
    rcases mem_update_scoped_store hr with h1 | ⟨f, hf, hr2⟩
    · exact ih r h1
    · rw [hr2]
      exact ih f hf
  | delById s id hprev ih =>
    intro r hr
    exact ih r (mem_delete_by_id hr)
  | delByIdUser s id uid hprev ih =>
    intro r hr
    exact ih r (mem_delete_by_id_user hr)
  | delByUser s uid hprev ih =>
    intro r hr
    exact ih r (mem_delete_by_user hr)
  | delAll s hprev ih =>
    intro r hr
    exact ih r (mem_delete_all hr)

/-- C8 (witness): the invariant at the state reached by one create from
a form with no extra keys. -/
theorem c8_witness : plainRec.version = 0 :=
  c8_version_invariant (insert_new_feedback [] "u1" plainForm "f1" 3 3 true true true).store
    (ReachableNV.create [] "u1" plainForm "f1" 3 3 true true true rfl ReachableNV.empty)
    plainRec (List.mem_cons_self _ _)
